import Mathlib

/-!
Verification of the archive-then-write mechanism of the industrial
monitoring pipeline (synth_data.py, plot_data.py, pipeline.py).

The filesystem is modelled as an association of paths to file contents
plus a set of existing directories.  Each Python routine is embedded as
a state-transforming function; calls to `datetime.now()` and to the
external inference service become explicit parameters (oracles), and
`shutil.move` takes a `MoveOutcome` oracle describing whether the move
succeeds, fails leaving the source in place, or fails after the data
reached the destination.  Exceptional control flow is `Except FS FS`:
`.error s` means an exception was raised with the filesystem in state
`s`; `.ok s` is normal return.
-/

/-- A file system: paths mapped to file contents, plus the set of
existing directories. -/
structure FS where
  files : List (String × String)
  dirs : List String
deriving DecidableEq

/-- Content of the file at path `p`, if any (first binding wins). -/
def FS.lookup (fs : FS) (p : String) : Option String :=
  (fs.files.find? (fun e => e.1 == p)).map (fun e => e.2)

/-- Model of `os.path.exists` restricted to files. -/
def FS.existsFile (fs : FS) (p : String) : Bool :=
  (fs.lookup p).isSome

/-- Write content `c` at path `p`, replacing any previous file there. -/
def FS.write (fs : FS) (p c : String) : FS :=
  { fs with files := (p, c) :: fs.files.filter (fun e => e.1 != p) }

/-- Remove the file at path `p` (no-op when absent). -/
def FS.removeFile (fs : FS) (p : String) : FS :=
  { fs with files := fs.files.filter (fun e => e.1 != p) }

/-- Model of `os.makedirs(d, exist_ok=True)`: idempotent directory
creation; file contents are untouched. -/
def FS.mkdirs (fs : FS) (d : String) : FS :=
  if fs.dirs.contains d then fs else { fs with dirs := d :: fs.dirs }

/-- Oracle describing the outcome of one `shutil.move` call: success,
failure with the source left in place, or failure after the content
already reached the destination. -/
inductive MoveOutcome where
  | success
  | failKeep
  | failMove
deriving DecidableEq

/-- Model of `shutil.move src dst`.  Raises when the source is missing;
on success the file is renamed (an existing destination is replaced);
on failure the exception carries the state described by the oracle. -/
def FS.move (fs : FS) (src dst : String) (mv : MoveOutcome) : Except FS FS :=
  match fs.lookup src with
  | none => .error fs
  | some c =>
    match mv with
    | .success => .ok ((fs.removeFile src).write dst c)
    | .failKeep => .error fs
    | .failMove => .error ((fs.removeFile src).write dst c)

/-- Model of `os.path.join` for the relative two-component joins used in
the source. -/
def pathJoin (a b : String) : String := a ++ "/" ++ b

/-- Index of the last occurrence of `c` in `l`, if any. -/
def lastIdxOf (c : Char) (l : List Char) : Option Nat :=
  (List.range l.length).foldl (fun acc i => if l[i]? = some c then some i else acc) none

/-- Model of `os.path.splitext` for plain filenames: splits at the last
dot, ignoring leading dots. -/
def splitext (s : String) : String × String :=
  let cs := s.data
  let lead := (cs.takeWhile (fun c => c == '.')).length
  match lastIdxOf '.' (cs.drop lead) with
  | none => (s, "")
  | some i => (String.mk (cs.take (lead + i)), String.mk (cs.drop (lead + i)))

/-- A wall-clock instant at second resolution, as captured by
`datetime.now()`. -/
structure DateTime where
  year : Nat
  month : Nat
  day : Nat
  hour : Nat
  minute : Nat
  second : Nat
deriving DecidableEq

/-- The decimal digit character for `n % 10`. -/
def digitChar (n : Nat) : Char := Char.ofNat (48 + n % 10)

/-- Two-digit zero-padded decimal rendering (strftime `%m`, `%d`, `%H`,
`%M`, `%S`). -/
def pad2 (n : Nat) : String := String.mk [digitChar (n / 10), digitChar n]

/-- Four-digit zero-padded decimal rendering (strftime `%Y` for years up
to 9999). -/
def pad4 (n : Nat) : String :=
  String.mk [digitChar (n / 1000), digitChar (n / 100), digitChar (n / 10), digitChar n]

/-- Model of `datetime.now().strftime("%Y%m%d_%H%M%S")`. -/
def fmtTimestamp (t : DateTime) : String :=
  pad4 t.year ++ pad2 t.month ++ pad2 t.day ++ "_"
    ++ pad2 t.hour ++ pad2 t.minute ++ pad2 t.second

/-- The archived name built in all three archive routines:
`f"{name}_{timestamp}{ext}"` with `name, ext = os.path.splitext(filename)`. -/
def archivedFilename (filename ts : String) : String :=
  let ne := splitext filename
  ne.1 ++ "_" ++ ts ++ ne.2

/-- Common body of the three archive routines for one filename: the
source's `if os.path.exists(filepath): shutil.move(filepath,
archived_filepath)` with the archived path built from the timestamp. -/
def archiveOne (dir archiveDir filename ts : String) (mv : MoveOutcome) (fs : FS) :
    Except FS FS :=
  let filepath := pathJoin dir filename
  if fs.existsFile filepath then
    fs.move filepath (pathJoin archiveDir (archivedFilename filename ts)) mv
  else
    .ok fs

/-- `archive_existing_files` of synth_data.py: one timestamp is taken,
then the loop over `["events.csv", "sensors.csv"]` (unrolled here)
archives each file that exists. -/
def archive_existing_files (ts : String) (mvE mvS : MoveOutcome) (fs : FS) :
    Except FS FS := do
  let fs := fs.mkdirs "data/archive"
  let fs ← archiveOne "data" "data/archive" "events.csv" ts mvE fs
  archiveOne "data" "data/archive" "sensors.csv" ts mvS fs

/-- `archive_existing_plot` of plot_data.py. -/
def archive_existing_plot (ts : String) (mv : MoveOutcome) (fs : FS) : Except FS FS :=
  let fs := fs.mkdirs "images/archive"
  archiveOne "images" "images/archive" "culprit_signals_analysis.png" ts mv fs

/-- `archive_existing_analysis` of pipeline.py (this variant also
creates the analysis directory itself). -/
def archive_existing_analysis (ts : String) (mv : MoveOutcome) (fs : FS) : Except FS FS :=
  let fs := (fs.mkdirs "analysis").mkdirs "analysis/archive"
  archiveOne "analysis" "analysis/archive" "analysis_report.txt" ts mv fs

/-- `generate_and_save_data` of synth_data.py: rotation first, then the
two CSV writes.  The generated CSV serializations are oracles. -/
def generate_and_save_data (ts : String) (mvE mvS : MoveOutcome)
    (eventsCsv sensorsCsv : String) (fs : FS) : Except FS FS := do
  let fs ← archive_existing_files ts mvE mvS fs
  let fs := fs.write "data/events.csv" eventsCsv
  pure (fs.write "data/sensors.csv" sensorsCsv)

/-- `load_data` of plot_data.py: reads both CSV files; a missing file
raises FileNotFoundError, which is caught and turned into `none`. -/
def load_data (fs : FS) : Option (String × String) :=
  match fs.lookup "data/events.csv", fs.lookup "data/sensors.csv" with
  | some e, some s => some (e, s)
  | _, _ => none

/-- `create_dashboard` of plot_data.py: returns early when the data is
missing; otherwise rotates the previous chart and writes the new one
(the rendered image bytes are an oracle). -/
def create_dashboard (tsPlot : String) (mvP : MoveOutcome) (plotPng : String) (fs : FS) :
    Except FS FS :=
  match load_data fs with
  | none => .ok fs
  | some _ => do
    let fs ← archive_existing_plot tsPlot mvP fs
    pure (fs.write "images/culprit_signals_analysis.png" plotPng)

/-- The 80-character rule written between report sections. -/
def rule80 : String := String.mk (List.replicate 80 '=')

/-- The exact content written by `save_analysis_report`, as the
concatenation of its successive `f.write` calls. -/
def reportContent (analysisText tsGen : String) : String :=
  rule80 ++ "\n" ++
  "INDUSTRIAL PROCESS MONITORING - ANOMALY ANALYSIS REPORT\n" ++
  rule80 ++ "\n" ++
  "Generated at: " ++ tsGen ++ "\n" ++
  "Source plot: images/culprit_signals_analysis.png\n" ++
  rule80 ++ "\n\n" ++
  analysisText ++
  "\n\n" ++ rule80 ++ "\n" ++
  "End of Report\n"

/-- `save_analysis_report` of pipeline.py.  A falsy result is a no-op;
in folder mode the rotation runs outside the try block, so its
exception propagates; the write itself is modelled as succeeding. -/
def save_analysis_report (analysisResult : Option String) (saveToAnalysisFolder : Bool)
    (tsArchive : String) (mvA : MoveOutcome) (tsGen tsLegacy : String) (fs : FS) :
    Except FS FS :=
  match analysisResult with
  | none => .ok fs
  | some text =>
    if saveToAnalysisFolder then
      match archive_existing_analysis tsArchive mvA fs with
      | .error s => .error s
      | .ok s =>
        let s := s.mkdirs "analysis"
        .ok (s.write (pathJoin "analysis" "analysis_report.txt") (reportContent text tsGen))
    else
      .ok (fs.write ("analysis_report_" ++ tsLegacy ++ ".txt") (reportContent text tsGen))

/-- `run_plot_analysis` of pipeline.py: both an import failure and an
inference failure are caught inside the function and yield `None`;
otherwise the model output is returned. -/
def run_plot_analysis (inference : Except Unit String) : Option String :=
  match inference with
  | .ok out => some out
  | .error _ => none

/-- The external oracles consumed by one pipeline cycle: the timestamps
taken from the wall clock, the outcome of each `shutil.move`, the
generated artifact contents, and the inference result. -/
structure PipelineEnv where
  tsData : String
  mvEvents : MoveOutcome
  mvSensors : MoveOutcome
  eventsCsv : String
  sensorsCsv : String
  tsPlot : String
  mvPlot : MoveOutcome
  plotPng : String
  inference : Except Unit String
  tsAnalysis : String
  mvAnalysis : MoveOutcome
  tsGen : String
  tsLegacy : String

/-- `run_complete_pipeline` of pipeline.py: failures of the generation
and plotting steps are caught and return `False`; an analysis failure
still returns `True` without saving; an exception escaping
`save_analysis_report` is not caught.  The Bool is the Python return
value. -/
def run_complete_pipeline (e : PipelineEnv) (fs : FS) : Except FS (FS × Bool) :=
  match generate_and_save_data e.tsData e.mvEvents e.mvSensors e.eventsCsv e.sensorsCsv fs with
  | .error s => .ok (s, false)
  | .ok fs₁ =>
    match create_dashboard e.tsPlot e.mvPlot e.plotPng fs₁ with
    | .error s => .ok (s, false)
    | .ok fs₂ =>
      match run_plot_analysis e.inference with
      | some text =>
        match save_analysis_report (some text) true e.tsAnalysis e.mvAnalysis e.tsGen e.tsLegacy fs₂ with
        | .error s => .error s
        | .ok fs₃ => .ok (fs₃, true)
      | none => .ok (fs₂, true)

/-- One iteration of the body of the `while True` loop of
`run_continuous_pipeline`.  The Bool records whether the iteration
reached the `time.sleep(interval_seconds)` call before the next cycle
starts: `continue` on a generation or plotting failure skips the sleep,
and an exception escaping `save_analysis_report` propagates out of the
loop (`.error`). -/
def continuousCycle (e : PipelineEnv) (fs : FS) : Except FS (FS × Bool) :=
  match generate_and_save_data e.tsData e.mvEvents e.mvSensors e.eventsCsv e.sensorsCsv fs with
  | .error s => .ok (s, false)
  | .ok fs₁ =>
    match create_dashboard e.tsPlot e.mvPlot e.plotPng fs₁ with
    | .error s => .ok (s, false)
    | .ok fs₂ =>
      match run_plot_analysis e.inference with
      | some text =>
        match save_analysis_report (some text) true e.tsAnalysis e.mvAnalysis e.tsGen e.tsLegacy fs₂ with
        | .error s => .error s
        | .ok fs₃ => .ok (fs₃, true)
      | none => .ok (fs₂, true)

/-- Join a list of lines, terminating each with a newline. -/
def mkLines (ls : List String) : String :=
  ls.foldr (fun l acc => l ++ "\n" ++ acc) ""

/-- Modelled from the spec: the report layout the spec claims — a
banner of a rule, a title line, a generation-timestamp line, a
source-artifact reference line and another rule, then the raw model
output, then a closing rule, with no other lines. -/
def claimedReportLayout (out tsGen : String) : String :=
  mkLines [rule80,
    "INDUSTRIAL PROCESS MONITORING - ANOMALY ANALYSIS REPORT",
    "Generated at: " ++ tsGen,
    "Source plot: images/culprit_signals_analysis.png",
    rule80]
  ++ out ++ "\n" ++ rule80 ++ "\n"

/-- `fs` and `fs'` hold the same file contents outside the path list `S`. -/
def sameOutside (fs fs' : FS) (S : List String) : Prop :=
  ∀ p : String, ¬ p ∈ S → fs'.lookup p = fs.lookup p

/-- The filesystem state carried by a result, whether the run returned
normally or raised. -/
def resState : Except FS FS → FS
  | .ok s => s
  | .error s => s

-- Basic lookup lemmas (these are general facts about the model and are
-- shared by the claim proofs).

theorem str_append_assoc (a b c : String) : (a ++ b) ++ c = a ++ (b ++ c) := by
  apply String.ext
  simp [String.data_append, List.append_assoc]

theorem str_ne_of_head (p q s t : String) (i : Nat)
    (ha : i < p.data.length) (hb : i < q.data.length)
    (hne : p.data[i]? ≠ q.data[i]?) : p ++ s ≠ q ++ t := by
  intro h
  have hd := congrArg String.data h
  rw [String.data_append, String.data_append] at hd
  apply hne
  calc p.data[i]? = (p.data ++ s.data)[i]? := (List.getElem?_append_left ha).symm
    _ = (q.data ++ t.data)[i]? := by rw [hd]
    _ = q.data[i]? := List.getElem?_append_left hb

theorem lit_ne_append (p q t : String) (i : Nat)
    (hb : i < q.data.length)
    (hne : p.data[i]? ≠ q.data[i]?) : p ≠ q ++ t := by
  intro h
  have hd := congrArg String.data h
  rw [String.data_append] at hd
  apply hne
  calc p.data[i]? = (q.data ++ t.data)[i]? := by rw [hd]
    _ = q.data[i]? := List.getElem?_append_left hb

theorem append_ne_of_tail (a s t : String) (h : s ≠ t) : a ++ s ≠ a ++ t := by
  intro hst
  apply h
  have hd := congrArg String.data hst
  rw [String.data_append, String.data_append] at hd
  exact String.ext (List.append_cancel_left hd)

theorem FS.lookup_mkdirs (fs : FS) (d p : String) :
    (fs.mkdirs d).lookup p = fs.lookup p := by
  unfold FS.mkdirs
  split <;> rfl

theorem find?_key_filter_ne (l : List (String × String)) (p q : String) (h : q ≠ p) :
    (l.filter (fun e => e.1 != p)).find? (fun e => e.1 == q)
      = l.find? (fun e => e.1 == q) := by
  induction l with
  | nil => rfl
  | cons a l ih =>
    by_cases hap : a.1 = p
    · have hq : (p == q) = false := by
        simp
        exact fun hpq => h hpq.symm
      simp [List.filter_cons, hap, List.find?_cons, hq, ih]
    · by_cases haq : a.1 = q
      · simp [List.filter_cons, hap, List.find?_cons, haq, h]
      · simp [List.filter_cons, hap, List.find?_cons, haq, ih]

theorem FS.lookup_write (fs : FS) (p c q : String) :
    (fs.write p c).lookup q = if q = p then some c else fs.lookup q := by
  unfold FS.write FS.lookup
  by_cases h : q = p
  · subst h
    simp [List.find?_cons]
  · have hp : (p == q) = false := by
      simp
      exact fun hpq => h hpq.symm
    simp [List.find?_cons, hp, find?_key_filter_ne fs.files p q h, h]

theorem FS.lookup_removeFile (fs : FS) (p q : String) :
    (fs.removeFile p).lookup q = if q = p then none else fs.lookup q := by
  unfold FS.removeFile FS.lookup
  by_cases h : q = p
  · subst h
    simp
  · simp [find?_key_filter_ne fs.files p q h, h]

theorem splitext_events : splitext "events.csv" = ("events", ".csv") := by decide

theorem splitext_sensors : splitext "sensors.csv" = ("sensors", ".csv") := by decide

theorem splitext_plot :
    splitext "culprit_signals_analysis.png" = ("culprit_signals_analysis", ".png") := by decide

theorem splitext_report :
    splitext "analysis_report.txt" = ("analysis_report", ".txt") := by decide

theorem mkdirs_idem (fs : FS) (d : String) : (fs.mkdirs d).mkdirs d = fs.mkdirs d := by
  by_cases h : d ∈ fs.dirs
  · simp [FS.mkdirs, h]
  · simp [FS.mkdirs, h]

/-- C3: when no file exists at the current-location path, each of the
three rotation routines is a no-op: it returns normally, creates no
archive entry, and leaves the filesystem unchanged apart from the
idempotent creation of the archive directory (which never alters file
contents). -/
theorem claim_C3_rotation_noop (ts : String) (mv mvE mvS : MoveOutcome) (fs : FS) :
    (fs.lookup "images/culprit_signals_analysis.png" = none →
      archive_existing_plot ts mv fs = .ok (fs.mkdirs "images/archive"))
    ∧ (fs.lookup "data/events.csv" = none → fs.lookup "data/sensors.csv" = none →
      archive_existing_files ts mvE mvS fs = .ok (fs.mkdirs "data/archive"))
    ∧ (fs.lookup "analysis/analysis_report.txt" = none →
      archive_existing_analysis ts mv fs = .ok ((fs.mkdirs "analysis").mkdirs "analysis/archive"))
    ∧ (∀ d p, (fs.mkdirs d).lookup p = fs.lookup p)
    ∧ (∀ d, (fs.mkdirs d).mkdirs d = fs.mkdirs d) := by
  refine ⟨?_, ?_, ?_, fun d p => FS.lookup_mkdirs fs d p, fun d => mkdirs_idem fs d⟩
  · intro h
    simp [archive_existing_plot, archiveOne, pathJoin, FS.existsFile, FS.lookup_mkdirs, h]
  · intro hE hS
    simp [archive_existing_files, archiveOne, pathJoin, FS.existsFile, FS.lookup_mkdirs,
      hE, hS, Bind.bind, Except.bind]
  · intro h
    simp [archive_existing_analysis, archiveOne, pathJoin, FS.existsFile, FS.lookup_mkdirs, h]

/-- Witness for C3 at a concrete empty filesystem. -/
theorem claim_C3_rotation_noop_witness :
    archive_existing_plot "20250913_080000" .success ⟨[], []⟩
      = .ok (FS.mkdirs ⟨[], []⟩ "images/archive") :=
  (claim_C3_rotation_noop "20250913_080000" .success .success .success ⟨[], []⟩).1 rfl

/-- C10: when either input CSV is missing, `create_dashboard` returns
normally with the filesystem entirely untouched: in particular the
current chart is neither rotated into the archive nor overwritten. -/
theorem claim_C10_dashboard_missing_input (tsPlot plotPng : String) (mvP : MoveOutcome)
    (fs : FS)
    (h : fs.lookup "data/events.csv" = none ∨ fs.lookup "data/sensors.csv" = none) :
    create_dashboard tsPlot mvP plotPng fs = .ok fs := by
  have hl : load_data fs = none := by
    unfold load_data
    rcases h with h | h
    · simp [h]
    · cases fs.lookup "data/events.csv" <;> simp [h]
  simp [create_dashboard, hl]

/-- Witness for C10: a filesystem holding only a chart, no CSV data. -/
theorem claim_C10_dashboard_missing_input_witness :
    create_dashboard "20250913_080000" .success "PNG"
        ⟨[("images/culprit_signals_analysis.png", "OLD")], []⟩
      = .ok ⟨[("images/culprit_signals_analysis.png", "OLD")], []⟩ :=
  claim_C10_dashboard_missing_input "20250913_080000" "PNG" .success
    ⟨[("images/culprit_signals_analysis.png", "OLD")], []⟩ (Or.inl rfl)

theorem digitChar_isDigit (n : Nat) : (digitChar n).isDigit = true := by
  have h10 : n % 10 < 10 := Nat.mod_lt _ (by norm_num)
  unfold digitChar
  set k := n % 10 with hk
  interval_cases k <;> decide

theorem pad2_digits (n : Nat) : ∀ c ∈ (pad2 n).data, c.isDigit = true := by
  intro c hc
  simp [pad2] at hc
  rcases hc with rfl | rfl <;> exact digitChar_isDigit _

theorem pad4_digits (n : Nat) : ∀ c ∈ (pad4 n).data, c.isDigit = true := by
  intro c hc
  simp [pad4] at hc
  rcases hc with rfl | rfl | rfl | rfl <;> exact digitChar_isDigit _

/-- C4: rotating an existing current-location file places the archive
entry in the archive directory under `base_timestamp.ext`: the
timestamp is inserted between the base filename and its extension
(first conjunct, for any filename), shown concretely for the analysis
report rotation (second conjunct), and the strftime timestamp renders
as an 8-digit date, an underscore, and a 6-digit time (third
conjunct). -/
theorem claim_C4_archive_naming (t : DateTime) (fs : FS) (c : String) :
    (∀ f n e ts, splitext f = (n, e) → archivedFilename f ts = n ++ ("_" ++ (ts ++ e)))
    ∧ (fs.lookup "analysis/analysis_report.txt" = some c →
      (resState (archive_existing_analysis (fmtTimestamp t) .success fs)).lookup
          ("analysis/archive/" ++ ("analysis_report_" ++ (fmtTimestamp t ++ ".txt"))) = some c)
    ∧ (∃ d tm, fmtTimestamp t = d ++ ("_" ++ tm)
        ∧ d.length = 8 ∧ tm.length = 6
        ∧ (∀ ch ∈ d.data, ch.isDigit = true) ∧ (∀ ch ∈ tm.data, ch.isDigit = true)) := by
  refine ⟨?_, ?_, ?_⟩
  · intro f n e ts h
    simp [archivedFilename, h, str_append_assoc]
  · intro h
    have hrun : archive_existing_analysis (fmtTimestamp t) .success fs
        = .ok ((((fs.mkdirs "analysis").mkdirs "analysis/archive").removeFile
            "analysis/analysis_report.txt").write
            ("analysis/archive/" ++ ("analysis_report_" ++ (fmtTimestamp t ++ ".txt"))) c) := by
      simp [archive_existing_analysis, archiveOne, pathJoin, FS.existsFile, FS.lookup_mkdirs,
        h, FS.move, archivedFilename, splitext_report, str_append_assoc]
    rw [hrun]
    simp [resState, FS.lookup_write]
  · refine ⟨pad4 t.year ++ (pad2 t.month ++ pad2 t.day),
      pad2 t.hour ++ (pad2 t.minute ++ pad2 t.second), ?_, ?_, ?_, ?_, ?_⟩
    · simp [fmtTimestamp, str_append_assoc]
    · simp [String.length_append]
      rfl
    · simp [String.length_append]
      rfl
    · intro ch hch
      simp [String.data_append] at hch
      rcases hch with h | h | h
      · exact pad4_digits _ ch h
      · exact pad2_digits _ ch h
      · exact pad2_digits _ ch h
    · intro ch hch
      simp [String.data_append] at hch
      rcases hch with h | h | h
      · exact pad2_digits _ ch h
      · exact pad2_digits _ ch h
      · exact pad2_digits _ ch h

/-- Witness for C4 at a concrete instant and filesystem. -/
theorem claim_C4_archive_naming_witness :
    (resState (archive_existing_analysis (fmtTimestamp ⟨2025, 9, 13, 8, 0, 0⟩) .success
        ⟨[("analysis/analysis_report.txt", "C")], []⟩)).lookup
      ("analysis/archive/" ++ ("analysis_report_"
        ++ (fmtTimestamp ⟨2025, 9, 13, 8, 0, 0⟩ ++ ".txt"))) = some "C" :=
  (claim_C4_archive_naming ⟨2025, 9, 13, 8, 0, 0⟩
    ⟨[("analysis/analysis_report.txt", "C")], []⟩ "C").2.1 rfl

/-- C9: when both events.csv and sensors.csv exist, a single invocation
of the tabular rotation archives both files under archive names
carrying the same timestamp string: the timestamp is computed once per
rotation call (it is a single parameter of the embedded routine, taken
before the loop), so the paired entries always share it. -/
theorem claim_C9_shared_timestamp (ts cE cS : String) (fs : FS)
    (hE : fs.lookup "data/events.csv" = some cE)
    (hS : fs.lookup "data/sensors.csv" = some cS) :
    ∃ s, archive_existing_files ts .success .success fs = .ok s
      ∧ s.lookup ("data/archive/" ++ ("events_" ++ (ts ++ ".csv"))) = some cE
      ∧ s.lookup ("data/archive/" ++ ("sensors_" ++ (ts ++ ".csv"))) = some cS := by
  have hSnAE : ("data/sensors.csv" : String)
      ≠ "data/archive/" ++ ("events_" ++ (ts ++ ".csv")) :=
    lit_ne_append _ _ _ 5 (by decide) (by decide)
  have hAES : ("data/archive/" ++ ("events_" ++ (ts ++ ".csv")) : String)
      ≠ "data/archive/" ++ ("sensors_" ++ (ts ++ ".csv")) :=
    append_ne_of_tail _ _ _ (str_ne_of_head _ _ _ _ 0 (by decide) (by decide) (by decide))
  have hAEnS : ("data/archive/" ++ ("events_" ++ (ts ++ ".csv")) : String)
      ≠ "data/sensors.csv" := Ne.symm hSnAE
  refine ⟨((((fs.mkdirs "data/archive").removeFile "data/events.csv").write
      ("data/archive/" ++ ("events_" ++ (ts ++ ".csv"))) cE).removeFile
      "data/sensors.csv").write ("data/archive/" ++ ("sensors_" ++ (ts ++ ".csv"))) cS,
    ?_, ?_, ?_⟩
  · simp [archive_existing_files, archiveOne, pathJoin, archivedFilename, splitext_events,
      splitext_sensors, FS.existsFile, FS.lookup_mkdirs, FS.lookup_write,
      FS.lookup_removeFile, FS.move, hE, hS, hSnAE, str_append_assoc,
      Bind.bind, Except.bind]
  · simp [FS.lookup_write, FS.lookup_removeFile, hAES, hAEnS]
  · simp [FS.lookup_write]

/-- Witness for C9 at a concrete filesystem holding both CSV files. -/
theorem claim_C9_shared_timestamp_witness :
    ∃ s, archive_existing_files "20250913_080000" .success .success
        ⟨[("data/events.csv", "E"), ("data/sensors.csv", "S")], []⟩ = .ok s
      ∧ s.lookup ("data/archive/" ++ ("events_" ++ ("20250913_080000" ++ ".csv"))) = some "E"
      ∧ s.lookup ("data/archive/" ++ ("sensors_" ++ ("20250913_080000" ++ ".csv"))) = some "S" :=
  claim_C9_shared_timestamp "20250913_080000" "E" "S"
    ⟨[("data/events.csv", "E"), ("data/sensors.csv", "S")], []⟩ rfl rfl

theorem dirs_write (fs : FS) (p c : String) : (fs.write p c).dirs = fs.dirs := rfl

theorem dirs_removeFile (fs : FS) (p : String) : (fs.removeFile p).dirs = fs.dirs := rfl

theorem mem_mkdirs (fs : FS) (d : String) : d ∈ (fs.mkdirs d).dirs := by
  by_cases h : d ∈ fs.dirs <;> simp [FS.mkdirs, h]

theorem mkdirs_of_mem (fs : FS) (d : String) (h : d ∈ fs.dirs) : fs.mkdirs d = fs := by
  simp [FS.mkdirs, h]

theorem archive_plot_exists (ts : String) (fs : FS) (c : String)
    (hd : "images/archive" ∈ fs.dirs)
    (h : fs.lookup "images/culprit_signals_analysis.png" = some c) :
    archive_existing_plot ts .success fs
      = .ok ((fs.removeFile "images/culprit_signals_analysis.png").write
          ("images/archive/" ++ ("culprit_signals_analysis_" ++ (ts ++ ".png"))) c) := by
  simp [archive_existing_plot, mkdirs_of_mem _ _ hd, archiveOne, pathJoin, archivedFilename,
    splitext_plot, FS.existsFile, h, FS.move, str_append_assoc]

/-- C6: two rotations of the chart within the same wall-clock second
(equal timestamp strings) compute the same archive filename, so they
collide: after the first rotation archives content c1 and a new chart
c2 is written and rotated in the same second, the single colliding
archive entry holds c2 and the copy of c1 is gone (the frame clause
shows no other path changed). -/
theorem claim_C6_same_second_collision (ts c1 c2 : String) (fs : FS)
    (h1 : fs.lookup "images/culprit_signals_analysis.png" = some c1) :
    ∃ s1 s2,
      archive_existing_plot ts .success fs = .ok s1
      ∧ s1.lookup ("images/archive/" ++ ("culprit_signals_analysis_" ++ (ts ++ ".png")))
          = some c1
      ∧ archive_existing_plot ts .success
          (s1.write "images/culprit_signals_analysis.png" c2) = .ok s2
      ∧ s2.lookup ("images/archive/" ++ ("culprit_signals_analysis_" ++ (ts ++ ".png")))
          = some c2
      ∧ s2.lookup "images/culprit_signals_analysis.png" = none
      ∧ ∀ p, p ≠ "images/culprit_signals_analysis.png" →
          p ≠ "images/archive/" ++ ("culprit_signals_analysis_" ++ (ts ++ ".png")) →
          s2.lookup p = fs.lookup p := by
  have hPnA : ("images/culprit_signals_analysis.png" : String)
      ≠ "images/archive/" ++ ("culprit_signals_analysis_" ++ (ts ++ ".png")) :=
    lit_ne_append _ _ _ 7 (by decide) (by decide)
  refine ⟨((fs.mkdirs "images/archive").removeFile
      "images/culprit_signals_analysis.png").write
      ("images/archive/" ++ ("culprit_signals_analysis_" ++ (ts ++ ".png"))) c1,
    (((((fs.mkdirs "images/archive").removeFile
      "images/culprit_signals_analysis.png").write
      ("images/archive/" ++ ("culprit_signals_analysis_" ++ (ts ++ ".png"))) c1).write
      "images/culprit_signals_analysis.png" c2).removeFile
      "images/culprit_signals_analysis.png").write
      ("images/archive/" ++ ("culprit_signals_analysis_" ++ (ts ++ ".png"))) c2,
    ?_, ?_, ?_, ?_, ?_, ?_⟩
  · simp [archive_existing_plot, archiveOne, pathJoin, archivedFilename, splitext_plot,
      FS.existsFile, FS.lookup_mkdirs, h1, FS.move, str_append_assoc]
  · simp [FS.lookup_write]
  · exact archive_plot_exists ts _ c2 (mem_mkdirs fs "images/archive")
      (by simp [FS.lookup_write])
  · simp [FS.lookup_write]
  · simp [FS.lookup_write, FS.lookup_removeFile, hPnA]
  · intro p hp hq
    simp [FS.lookup_write, FS.lookup_removeFile, FS.lookup_mkdirs, hp, hq]

/-- Witness for C6 at a concrete filesystem holding a chart. -/
theorem claim_C6_same_second_collision_witness :
    ∃ s1 s2,
      archive_existing_plot "20250913_080000" .success
          ⟨[("images/culprit_signals_analysis.png", "OLD")], []⟩ = .ok s1
      ∧ s1.lookup ("images/archive/"
          ++ ("culprit_signals_analysis_" ++ ("20250913_080000" ++ ".png"))) = some "OLD"
      ∧ archive_existing_plot "20250913_080000" .success
          (s1.write "images/culprit_signals_analysis.png" "NEW") = .ok s2
      ∧ s2.lookup ("images/archive/"
          ++ ("culprit_signals_analysis_" ++ ("20250913_080000" ++ ".png"))) = some "NEW"
      ∧ s2.lookup "images/culprit_signals_analysis.png" = none
      ∧ ∀ p, p ≠ "images/culprit_signals_analysis.png" →
          p ≠ "images/archive/"
            ++ ("culprit_signals_analysis_" ++ ("20250913_080000" ++ ".png")) →
          s2.lookup p = FS.lookup ⟨[("images/culprit_signals_analysis.png", "OLD")], []⟩ p :=
  claim_C6_same_second_collision "20250913_080000" "OLD" "NEW"
    ⟨[("images/culprit_signals_analysis.png", "OLD")], []⟩ rfl

theorem archive_analysis_exists (ts : String) (fs : FS) (c : String)
    (h : fs.lookup "analysis/analysis_report.txt" = some c) :
    archive_existing_analysis ts .success fs
      = .ok ((((fs.mkdirs "analysis").mkdirs "analysis/archive").removeFile
          "analysis/analysis_report.txt").write
          ("analysis/archive/" ++ ("analysis_report_" ++ (ts ++ ".txt"))) c) := by
  simp [archive_existing_analysis, archiveOne, pathJoin, archivedFilename, splitext_report,
    FS.existsFile, FS.lookup_mkdirs, h, FS.move, str_append_assoc]

theorem archive_files_both (ts cE cS : String) (fs : FS)
    (hE : fs.lookup "data/events.csv" = some cE)
    (hS : fs.lookup "data/sensors.csv" = some cS) :
    archive_existing_files ts .success .success fs
      = .ok (((((fs.mkdirs "data/archive").removeFile "data/events.csv").write
          ("data/archive/" ++ ("events_" ++ (ts ++ ".csv"))) cE).removeFile
          "data/sensors.csv").write
          ("data/archive/" ++ ("sensors_" ++ (ts ++ ".csv"))) cS) := by
  have hSnAE : ("data/sensors.csv" : String)
      ≠ "data/archive/" ++ ("events_" ++ (ts ++ ".csv")) :=
    lit_ne_append _ _ _ 5 (by decide) (by decide)
  simp [archive_existing_files, archiveOne, pathJoin, archivedFilename, splitext_events,
    splitext_sensors, FS.existsFile, FS.lookup_mkdirs, FS.lookup_write,
    FS.lookup_removeFile, FS.move, hE, hS, hSnAE, str_append_assoc,
    Bind.bind, Except.bind]

/-- C1: archive-then-write with existing current content and a fresh
archive name: afterwards the current-location path holds the new
content and the archive holds exactly one new entry, byte-identical to
the previous content, with every other path unchanged.  Shown for the
analysis-report instance (first conjunct) and for the tabular-data
instance (second conjunct). -/
theorem claim_C1_archive_then_write
    (text tsGen tsA tsL tsD eventsCsv sensorsCsv cR cE cS : String) (fs : FS) :
    (fs.lookup "analysis/analysis_report.txt" = some cR →
     fs.lookup ("analysis/archive/" ++ ("analysis_report_" ++ (tsA ++ ".txt"))) = none →
     ∃ s, save_analysis_report (some text) true tsA .success tsGen tsL fs = .ok s
       ∧ s.lookup "analysis/analysis_report.txt" = some (reportContent text tsGen)
       ∧ s.lookup ("analysis/archive/" ++ ("analysis_report_" ++ (tsA ++ ".txt"))) = some cR
       ∧ ∀ p, p ≠ "analysis/analysis_report.txt" →
           p ≠ "analysis/archive/" ++ ("analysis_report_" ++ (tsA ++ ".txt")) →
           s.lookup p = fs.lookup p)
    ∧ (fs.lookup "data/events.csv" = some cE →
       fs.lookup "data/sensors.csv" = some cS →
       fs.lookup ("data/archive/" ++ ("events_" ++ (tsD ++ ".csv"))) = none →
       fs.lookup ("data/archive/" ++ ("sensors_" ++ (tsD ++ ".csv"))) = none →
       ∃ s, generate_and_save_data tsD .success .success eventsCsv sensorsCsv fs = .ok s
         ∧ s.lookup "data/events.csv" = some eventsCsv
         ∧ s.lookup "data/sensors.csv" = some sensorsCsv
         ∧ s.lookup ("data/archive/" ++ ("events_" ++ (tsD ++ ".csv"))) = some cE
         ∧ s.lookup ("data/archive/" ++ ("sensors_" ++ (tsD ++ ".csv"))) = some cS
         ∧ ∀ p, p ≠ "data/events.csv" → p ≠ "data/sensors.csv" →
             p ≠ "data/archive/" ++ ("events_" ++ (tsD ++ ".csv")) →
             p ≠ "data/archive/" ++ ("sensors_" ++ (tsD ++ ".csv")) →
             s.lookup p = fs.lookup p) := by
  constructor
  · intro hR hFresh
    have hCnA : ("analysis/analysis_report.txt" : String)
        ≠ "analysis/archive/" ++ ("analysis_report_" ++ (tsA ++ ".txt")) :=
      lit_ne_append _ _ _ 10 (by decide) (by decide)
    refine ⟨(((((fs.mkdirs "analysis").mkdirs "analysis/archive").removeFile
        "analysis/analysis_report.txt").write
        ("analysis/archive/" ++ ("analysis_report_" ++ (tsA ++ ".txt"))) cR).mkdirs
        "analysis").write "analysis/analysis_report.txt" (reportContent text tsGen),
      ?_, ?_, ?_, ?_⟩
    · simp [save_analysis_report, archive_analysis_exists tsA fs cR hR, pathJoin]
    · simp [FS.lookup_write]
    · simp [FS.lookup_write, FS.lookup_mkdirs, Ne.symm hCnA]
    · intro p hp hq
      simp [FS.lookup_write, FS.lookup_removeFile, FS.lookup_mkdirs, hp, hq]
  · intro hE hS hFreshE hFreshS
    have hEnAE : ("data/events.csv" : String)
        ≠ "data/archive/" ++ ("events_" ++ (tsD ++ ".csv")) :=
      lit_ne_append _ _ _ 5 (by decide) (by decide)
    have hEnAS : ("data/events.csv" : String)
        ≠ "data/archive/" ++ ("sensors_" ++ (tsD ++ ".csv")) :=
      lit_ne_append _ _ _ 5 (by decide) (by decide)
    have hSnAE : ("data/sensors.csv" : String)
        ≠ "data/archive/" ++ ("events_" ++ (tsD ++ ".csv")) :=
      lit_ne_append _ _ _ 5 (by decide) (by decide)
    have hSnAS : ("data/sensors.csv" : String)
        ≠ "data/archive/" ++ ("sensors_" ++ (tsD ++ ".csv")) :=
      lit_ne_append _ _ _ 5 (by decide) (by decide)
    have hAES : ("data/archive/" ++ ("events_" ++ (tsD ++ ".csv")) : String)
        ≠ "data/archive/" ++ ("sensors_" ++ (tsD ++ ".csv")) :=
      append_ne_of_tail _ _ _ (str_ne_of_head _ _ _ _ 0 (by decide) (by decide) (by decide))
    refine ⟨((((((fs.mkdirs "data/archive").removeFile "data/events.csv").write
        ("data/archive/" ++ ("events_" ++ (tsD ++ ".csv"))) cE).removeFile
        "data/sensors.csv").write
        ("data/archive/" ++ ("sensors_" ++ (tsD ++ ".csv"))) cS).write
        "data/events.csv" eventsCsv).write "data/sensors.csv" sensorsCsv,
      ?_, ?_, ?_, ?_, ?_, ?_⟩
    · simp [generate_and_save_data, archive_files_both tsD cE cS fs hE hS,
        Bind.bind, Except.bind, pure, Except.pure]
    · simp [FS.lookup_write]
    · simp [FS.lookup_write]
    · simp [FS.lookup_write, FS.lookup_removeFile, Ne.symm hEnAE, Ne.symm hSnAE, hAES]
    · simp [FS.lookup_write, FS.lookup_removeFile, Ne.symm hEnAS, Ne.symm hSnAS]
    · intro p hp1 hp2 hp3 hp4
      simp [FS.lookup_write, FS.lookup_removeFile, FS.lookup_mkdirs, hp1, hp2, hp3, hp4]

/-- Witness for C1 at a concrete filesystem holding a previous report. -/
theorem claim_C1_archive_then_write_witness :
    ∃ s, save_analysis_report (some "OUT") true "20250913_080000" .success
        "2025-09-13 08:00:00" "L" ⟨[("analysis/analysis_report.txt", "OLD")], []⟩ = .ok s
      ∧ s.lookup "analysis/analysis_report.txt"
          = some (reportContent "OUT" "2025-09-13 08:00:00")
      ∧ s.lookup ("analysis/archive/"
          ++ ("analysis_report_" ++ ("20250913_080000" ++ ".txt"))) = some "OLD"
      ∧ ∀ p, p ≠ "analysis/analysis_report.txt" →
          p ≠ "analysis/archive/" ++ ("analysis_report_" ++ ("20250913_080000" ++ ".txt")) →
          s.lookup p = FS.lookup ⟨[("analysis/analysis_report.txt", "OLD")], []⟩ p :=
  (claim_C1_archive_then_write "OUT" "2025-09-13 08:00:00" "20250913_080000" "L" "D"
    "E" "S" "OLD" "CE" "CS" ⟨[("analysis/analysis_report.txt", "OLD")], []⟩).1 rfl rfl

/-- C2: when the move of the existing current file fails, the
archive-then-write operation raises before any new content is written:
the result is an exception, and the old file is either fully in place
(with everything unchanged) or fully moved into the archive, with no
other path touched.  First conjunct: the report instance; second:
tabular data with the events move failing (nothing further runs);
third: tabular data with the sensors move failing after a successful
events move (the CSV writes are still never reached). -/
theorem claim_C2_failed_move_guards
    (text tsGen tsA tsL tsD eventsCsv sensorsCsv cR cE cS : String)
    (mv mvE mvS : MoveOutcome) (fs : FS) :
    (mv ≠ .success → fs.lookup "analysis/analysis_report.txt" = some cR →
      ∃ s, save_analysis_report (some text) true tsA mv tsGen tsL fs = .error s
        ∧ ((s.lookup "analysis/analysis_report.txt" = some cR
              ∧ ∀ p, s.lookup p = fs.lookup p)
          ∨ (s.lookup "analysis/analysis_report.txt" = none
              ∧ s.lookup ("analysis/archive/"
                  ++ ("analysis_report_" ++ (tsA ++ ".txt"))) = some cR
              ∧ ∀ p, p ≠ "analysis/analysis_report.txt" →
                  p ≠ "analysis/archive/" ++ ("analysis_report_" ++ (tsA ++ ".txt")) →
                  s.lookup p = fs.lookup p)))
    ∧ (mvE ≠ .success → fs.lookup "data/events.csv" = some cE →
      ∃ s, generate_and_save_data tsD mvE mvS eventsCsv sensorsCsv fs = .error s
        ∧ ((s.lookup "data/events.csv" = some cE ∧ ∀ p, s.lookup p = fs.lookup p)
          ∨ (s.lookup "data/events.csv" = none
              ∧ s.lookup ("data/archive/" ++ ("events_" ++ (tsD ++ ".csv"))) = some cE
              ∧ ∀ p, p ≠ "data/events.csv" →
                  p ≠ "data/archive/" ++ ("events_" ++ (tsD ++ ".csv")) →
                  s.lookup p = fs.lookup p)))
    ∧ (mvS ≠ .success → fs.lookup "data/events.csv" = some cE →
        fs.lookup "data/sensors.csv" = some cS →
      ∃ s, generate_and_save_data tsD .success mvS eventsCsv sensorsCsv fs = .error s
        ∧ s.lookup "data/events.csv" = none
        ∧ s.lookup ("data/archive/" ++ ("events_" ++ (tsD ++ ".csv"))) = some cE
        ∧ ((s.lookup "data/sensors.csv" = some cS
              ∧ ∀ p, p ≠ "data/events.csv" →
                  p ≠ "data/archive/" ++ ("events_" ++ (tsD ++ ".csv")) →
                  s.lookup p = fs.lookup p)
          ∨ (s.lookup "data/sensors.csv" = none
              ∧ s.lookup ("data/archive/" ++ ("sensors_" ++ (tsD ++ ".csv"))) = some cS
              ∧ ∀ p, p ≠ "data/events.csv" → p ≠ "data/sensors.csv" →
                  p ≠ "data/archive/" ++ ("events_" ++ (tsD ++ ".csv")) →
                  p ≠ "data/archive/" ++ ("sensors_" ++ (tsD ++ ".csv")) →
                  s.lookup p = fs.lookup p))) := by
  have hCnA : ("analysis/analysis_report.txt" : String)
      ≠ "analysis/archive/" ++ ("analysis_report_" ++ (tsA ++ ".txt")) :=
    lit_ne_append _ _ _ 10 (by decide) (by decide)
  have hEnAE : ("data/events.csv" : String)
      ≠ "data/archive/" ++ ("events_" ++ (tsD ++ ".csv")) :=
    lit_ne_append _ _ _ 5 (by decide) (by decide)
  have hEnAS : ("data/events.csv" : String)
      ≠ "data/archive/" ++ ("sensors_" ++ (tsD ++ ".csv")) :=
    lit_ne_append _ _ _ 5 (by decide) (by decide)
  have hSnAE : ("data/sensors.csv" : String)
      ≠ "data/archive/" ++ ("events_" ++ (tsD ++ ".csv")) :=
    lit_ne_append _ _ _ 5 (by decide) (by decide)
  have hSnAS : ("data/sensors.csv" : String)
      ≠ "data/archive/" ++ ("sensors_" ++ (tsD ++ ".csv")) :=
    lit_ne_append _ _ _ 5 (by decide) (by decide)
  have hAES : ("data/archive/" ++ ("events_" ++ (tsD ++ ".csv")) : String)
      ≠ "data/archive/" ++ ("sensors_" ++ (tsD ++ ".csv")) :=
    append_ne_of_tail _ _ _ (str_ne_of_head _ _ _ _ 0 (by decide) (by decide) (by decide))
  refine ⟨?_, ?_, ?_⟩
  · intro hne hR
    cases mv with
    | success => exact absurd rfl hne
    | failKeep =>
      refine ⟨(fs.mkdirs "analysis").mkdirs "analysis/archive", ?_, Or.inl ⟨?_, ?_⟩⟩
      · simp [save_analysis_report, archive_existing_analysis, archiveOne, pathJoin,
          archivedFilename, splitext_report, FS.existsFile, FS.lookup_mkdirs, hR,
          FS.move, str_append_assoc]
      · simp [FS.lookup_mkdirs, hR]
      · intro p
        simp [FS.lookup_mkdirs]
    | failMove =>
      refine ⟨(((fs.mkdirs "analysis").mkdirs "analysis/archive").removeFile
          "analysis/analysis_report.txt").write
          ("analysis/archive/" ++ ("analysis_report_" ++ (tsA ++ ".txt"))) cR,
        ?_, Or.inr ⟨?_, ?_, ?_⟩⟩
      · simp [save_analysis_report, archive_existing_analysis, archiveOne, pathJoin,
          archivedFilename, splitext_report, FS.existsFile, FS.lookup_mkdirs, hR,
          FS.move, str_append_assoc]
      · simp [FS.lookup_write, FS.lookup_removeFile, hCnA]
      · simp [FS.lookup_write]
      · intro p hp hq
        simp [FS.lookup_write, FS.lookup_removeFile, FS.lookup_mkdirs, hp, hq]
  · intro hne hE
    cases mvE with
    | success => exact absurd rfl hne
    | failKeep =>
      refine ⟨fs.mkdirs "data/archive", ?_, Or.inl ⟨?_, ?_⟩⟩
      · simp [generate_and_save_data, archive_existing_files, archiveOne, pathJoin,
          archivedFilename, splitext_events, FS.existsFile, FS.lookup_mkdirs, hE,
          FS.move, str_append_assoc, Bind.bind, Except.bind]
      · simp [FS.lookup_mkdirs, hE]
      · intro p
        simp [FS.lookup_mkdirs]
    | failMove =>
      refine ⟨((fs.mkdirs "data/archive").removeFile "data/events.csv").write
          ("data/archive/" ++ ("events_" ++ (tsD ++ ".csv"))) cE,
        ?_, Or.inr ⟨?_, ?_, ?_⟩⟩
      · simp [generate_and_save_data, archive_existing_files, archiveOne, pathJoin,
          archivedFilename, splitext_events, FS.existsFile, FS.lookup_mkdirs, hE,
          FS.move, str_append_assoc, Bind.bind, Except.bind]
      · simp [FS.lookup_write, FS.lookup_removeFile, hEnAE]
      · simp [FS.lookup_write]
      · intro p hp hq
        simp [FS.lookup_write, FS.lookup_removeFile, FS.lookup_mkdirs, hp, hq]
  · intro hne hE hS
    cases mvS with
    | success => exact absurd rfl hne
    | failKeep =>
      refine ⟨((fs.mkdirs "data/archive").removeFile "data/events.csv").write
          ("data/archive/" ++ ("events_" ++ (tsD ++ ".csv"))) cE,
        ?_, ?_, ?_, Or.inl ⟨?_, ?_⟩⟩
      · simp [generate_and_save_data, archive_existing_files, archiveOne, pathJoin,
          archivedFilename, splitext_events, splitext_sensors, FS.existsFile,
          FS.lookup_mkdirs, FS.lookup_write, FS.lookup_removeFile, hE, hS, hSnAE,
          FS.move, str_append_assoc, Bind.bind, Except.bind]
      · simp [FS.lookup_write, FS.lookup_removeFile, hEnAE]
      · simp [FS.lookup_write]
      · simp [FS.lookup_write, FS.lookup_removeFile, FS.lookup_mkdirs, hSnAE, hS]
      · intro p hp hq
        simp [FS.lookup_write, FS.lookup_removeFile, FS.lookup_mkdirs, hp, hq]
    | failMove =>
      refine ⟨((((fs.mkdirs "data/archive").removeFile "data/events.csv").write
          ("data/archive/" ++ ("events_" ++ (tsD ++ ".csv"))) cE).removeFile
          "data/sensors.csv").write
          ("data/archive/" ++ ("sensors_" ++ (tsD ++ ".csv"))) cS,
        ?_, ?_, ?_, Or.inr ⟨?_, ?_, ?_⟩⟩
      · simp [generate_and_save_data, archive_existing_files, archiveOne, pathJoin,
          archivedFilename, splitext_events, splitext_sensors, FS.existsFile,
          FS.lookup_mkdirs, FS.lookup_write, FS.lookup_removeFile, hE, hS, hSnAE,
          FS.move, str_append_assoc, Bind.bind, Except.bind]
      · simp [FS.lookup_write, FS.lookup_removeFile, hEnAE, hEnAS]
      · simp [FS.lookup_write, FS.lookup_removeFile, hAES, Ne.symm hSnAE]
      · simp [FS.lookup_write, FS.lookup_removeFile, hSnAS]
      · simp [FS.lookup_write]
      · intro p hp1 hp2 hp3 hp4
        simp [FS.lookup_write, FS.lookup_removeFile, FS.lookup_mkdirs, hp1, hp2, hp3, hp4]

/-- Witness for C2: a failing move on a concrete filesystem with an
existing report. -/
theorem claim_C2_failed_move_guards_witness :
    ∃ s, save_analysis_report (some "OUT") true "TS" .failKeep "TG" "TL"
        ⟨[("analysis/analysis_report.txt", "OLD")], []⟩ = .error s
      ∧ ((s.lookup "analysis/analysis_report.txt" = some "OLD"
            ∧ ∀ p, s.lookup p
              = FS.lookup ⟨[("analysis/analysis_report.txt", "OLD")], []⟩ p)
        ∨ (s.lookup "analysis/analysis_report.txt" = none
            ∧ s.lookup ("analysis/archive/"
                ++ ("analysis_report_" ++ ("TS" ++ ".txt"))) = some "OLD"
            ∧ ∀ p, p ≠ "analysis/analysis_report.txt" →
                p ≠ "analysis/archive/" ++ ("analysis_report_" ++ ("TS" ++ ".txt")) →
                s.lookup p
                  = FS.lookup ⟨[("analysis/analysis_report.txt", "OLD")], []⟩ p)) :=
  (claim_C2_failed_move_guards "OUT" "TG" "TS" "TL" "TD" "E" "S" "OLD" "CE" "CS"
    .failKeep .success .success ⟨[("analysis/analysis_report.txt", "OLD")], []⟩).1
    (by decide) rfl

theorem archPath_events (ts : String) :
    pathJoin "data/archive" (archivedFilename "events.csv" ts)
      = "data/archive/" ++ ("events_" ++ (ts ++ ".csv")) := by
  simp [pathJoin, archivedFilename, splitext_events, str_append_assoc]

theorem archPath_sensors (ts : String) :
    pathJoin "data/archive" (archivedFilename "sensors.csv" ts)
      = "data/archive/" ++ ("sensors_" ++ (ts ++ ".csv")) := by
  simp [pathJoin, archivedFilename, splitext_sensors, str_append_assoc]

theorem archPath_plot (ts : String) :
    pathJoin "images/archive" (archivedFilename "culprit_signals_analysis.png" ts)
      = "images/archive/" ++ ("culprit_signals_analysis_" ++ (ts ++ ".png")) := by
  simp [pathJoin, archivedFilename, splitext_plot, str_append_assoc]

theorem sameOutside_refl (fs : FS) (S : List String) : sameOutside fs fs S :=
  fun _ _ => rfl

theorem sameOutside_trans {fs1 fs2 fs3 : FS} {S : List String}
    (h1 : sameOutside fs1 fs2 S) (h2 : sameOutside fs2 fs3 S) :
    sameOutside fs1 fs3 S :=
  fun p hp => (h2 p hp).trans (h1 p hp)

theorem sameOutside_write (fs : FS) (S : List String) (q c : String) (hq : q ∈ S) :
    sameOutside fs (fs.write q c) S := by
  intro p hp
  rw [FS.lookup_write, if_neg]
  intro h
  exact hp (h ▸ hq)

theorem sameOutside_removeFile (fs : FS) (S : List String) (q : String) (hq : q ∈ S) :
    sameOutside fs (fs.removeFile q) S := by
  intro p hp
  rw [FS.lookup_removeFile, if_neg]
  intro h
  exact hp (h ▸ hq)

theorem sameOutside_mkdirs (fs : FS) (S : List String) (d : String) :
    sameOutside fs (fs.mkdirs d) S :=
  fun p _ => FS.lookup_mkdirs fs d p

theorem sameOutside_move (fs : FS) (S : List String) (src dst : String) (mv : MoveOutcome)
    (hs : src ∈ S) (hd : dst ∈ S) :
    sameOutside fs (resState (fs.move src dst mv)) S := by
  unfold FS.move
  cases h : fs.lookup src with
  | none => exact sameOutside_refl fs S
  | some c =>
    cases mv with
    | success =>
      exact sameOutside_trans (sameOutside_removeFile fs S src hs)
        (sameOutside_write _ S dst c hd)
    | failKeep => exact sameOutside_refl fs S
    | failMove =>
      exact sameOutside_trans (sameOutside_removeFile fs S src hs)
        (sameOutside_write _ S dst c hd)

theorem sameOutside_archiveOne (dir archiveDir f ts : String) (mv : MoveOutcome)
    (fs : FS) (S : List String)
    (h1 : pathJoin dir f ∈ S)
    (h2 : pathJoin archiveDir (archivedFilename f ts) ∈ S) :
    sameOutside fs (resState (archiveOne dir archiveDir f ts mv fs)) S := by
  simp only [archiveOne]
  split
  · exact sameOutside_move fs S _ _ mv h1 h2
  · exact sameOutside_refl fs S

theorem sameOutside_archive_files (ts : String) (mvE mvS : MoveOutcome) (fs : FS)
    (S : List String)
    (h1 : "data/events.csv" ∈ S) (h2 : "data/sensors.csv" ∈ S)
    (h3 : pathJoin "data/archive" (archivedFilename "events.csv" ts) ∈ S)
    (h4 : pathJoin "data/archive" (archivedFilename "sensors.csv" ts) ∈ S) :
    sameOutside fs (resState (archive_existing_files ts mvE mvS fs)) S := by
  have hm : sameOutside fs (fs.mkdirs "data/archive") S :=
    sameOutside_mkdirs fs S "data/archive"
  have hA := sameOutside_archiveOne "data" "data/archive" "events.csv" ts mvE
    (fs.mkdirs "data/archive") S h1 h3
  cases hE : archiveOne "data" "data/archive" "events.csv" ts mvE
      (fs.mkdirs "data/archive") with
  | error s =>
    rw [hE] at hA
    simp only [archive_existing_files, hE, Bind.bind, Except.bind, resState]
    exact sameOutside_trans hm hA
  | ok s =>
    rw [hE] at hA
    have hB := sameOutside_archiveOne "data" "data/archive" "sensors.csv" ts mvS s S h2 h4
    simp only [archive_existing_files, hE, Bind.bind, Except.bind]
    exact sameOutside_trans (sameOutside_trans hm hA) hB

theorem sameOutside_archive_plot (ts : String) (mv : MoveOutcome) (fs : FS)
    (S : List String)
    (h1 : "images/culprit_signals_analysis.png" ∈ S)
    (h2 : pathJoin "images/archive" (archivedFilename "culprit_signals_analysis.png" ts) ∈ S) :
    sameOutside fs (resState (archive_existing_plot ts mv fs)) S := by
  have hm : sameOutside fs (fs.mkdirs "images/archive") S :=
    sameOutside_mkdirs fs S "images/archive"
  have hA := sameOutside_archiveOne "images" "images/archive"
    "culprit_signals_analysis.png" ts mv (fs.mkdirs "images/archive") S h1 h2
  simp only [archive_existing_plot]
  exact sameOutside_trans hm hA

theorem sameOutside_generate (ts : String) (mvE mvS : MoveOutcome)
    (eventsCsv sensorsCsv : String) (fs : FS) (S : List String)
    (h1 : "data/events.csv" ∈ S) (h2 : "data/sensors.csv" ∈ S)
    (h3 : pathJoin "data/archive" (archivedFilename "events.csv" ts) ∈ S)
    (h4 : pathJoin "data/archive" (archivedFilename "sensors.csv" ts) ∈ S) :
    sameOutside fs (resState (generate_and_save_data ts mvE mvS eventsCsv sensorsCsv fs)) S := by
  have hA := sameOutside_archive_files ts mvE mvS fs S h1 h2 h3 h4
  cases hE : archive_existing_files ts mvE mvS fs with
  | error s =>
    rw [hE] at hA
    simp only [generate_and_save_data, hE, Bind.bind, Except.bind, resState]
    exact hA
  | ok s =>
    rw [hE] at hA
    simp only [generate_and_save_data, hE, Bind.bind, Except.bind, pure, Except.pure, resState]
    exact sameOutside_trans hA
      (sameOutside_trans (sameOutside_write s S "data/events.csv" eventsCsv h1)
        (sameOutside_write _ S "data/sensors.csv" sensorsCsv h2))

theorem sameOutside_dashboard (ts : String) (mvP : MoveOutcome) (png : String)
    (fs : FS) (S : List String)
    (h5 : "images/culprit_signals_analysis.png" ∈ S)
    (h6 : pathJoin "images/archive" (archivedFilename "culprit_signals_analysis.png" ts) ∈ S) :
    sameOutside fs (resState (create_dashboard ts mvP png fs)) S := by
  have hA := sameOutside_archive_plot ts mvP fs S h5 h6
  cases hl : load_data fs with
  | none =>
    simp only [create_dashboard, hl, resState]
    exact sameOutside_refl fs S
  | some v =>
    cases hP : archive_existing_plot ts mvP fs with
    | error s =>
      rw [hP] at hA
      simp only [create_dashboard, hl, hP, Bind.bind, Except.bind, resState]
      exact hA
    | ok s =>
      rw [hP] at hA
      simp only [create_dashboard, hl, hP, Bind.bind, Except.bind, pure, Except.pure, resState]
      exact sameOutside_trans hA
        (sameOutside_write s S "images/culprit_signals_analysis.png" png h5)

/-- C8: if importing the inference library or the inference call fails,
`run_plot_analysis` returns `none` rather than raising, and the
enclosing `run_complete_pipeline` cycle returns normally while the
analysis report artifact is left untouched: any change is confined to
the data and image paths, and the report path is unchanged. -/
theorem claim_C8_analysis_failure_contained (e : PipelineEnv) (fs : FS)
    (he : e.inference = .error ()) :
    run_plot_analysis e.inference = none
    ∧ ∃ s b, run_complete_pipeline e fs = .ok (s, b)
      ∧ sameOutside fs s ["data/events.csv", "data/sensors.csv",
          pathJoin "data/archive" (archivedFilename "events.csv" e.tsData),
          pathJoin "data/archive" (archivedFilename "sensors.csv" e.tsData),
          "images/culprit_signals_analysis.png",
          pathJoin "images/archive" (archivedFilename "culprit_signals_analysis.png" e.tsPlot)]
      ∧ s.lookup "analysis/analysis_report.txt"
          = fs.lookup "analysis/analysis_report.txt" := by
  have hnR : ("analysis/analysis_report.txt" : String)
      ∉ ["data/events.csv", "data/sensors.csv",
          pathJoin "data/archive" (archivedFilename "events.csv" e.tsData),
          pathJoin "data/archive" (archivedFilename "sensors.csv" e.tsData),
          "images/culprit_signals_analysis.png",
          pathJoin "images/archive"
            (archivedFilename "culprit_signals_analysis.png" e.tsPlot)] := by
    simp [archPath_events, archPath_sensors, archPath_plot]
    exact ⟨lit_ne_append _ _ _ 0 (by decide) (by decide),
      lit_ne_append _ _ _ 0 (by decide) (by decide),
      lit_ne_append _ _ _ 0 (by decide) (by decide)⟩
  refine ⟨by simp [run_plot_analysis, he], ?_⟩
  cases hg : generate_and_save_data e.tsData e.mvEvents e.mvSensors
      e.eventsCsv e.sensorsCsv fs with
  | error s =>
    have hF := sameOutside_generate e.tsData e.mvEvents e.mvSensors e.eventsCsv e.sensorsCsv
      fs ["data/events.csv", "data/sensors.csv",
          pathJoin "data/archive" (archivedFilename "events.csv" e.tsData),
          pathJoin "data/archive" (archivedFilename "sensors.csv" e.tsData),
          "images/culprit_signals_analysis.png",
          pathJoin "images/archive"
            (archivedFilename "culprit_signals_analysis.png" e.tsPlot)]
      (by simp) (by simp) (by simp) (by simp)
    rw [hg] at hF
    simp only [resState] at hF
    exact ⟨s, false, by simp [run_complete_pipeline, hg], hF, hF _ hnR⟩
  | ok fs1 =>
    have hF1 := sameOutside_generate e.tsData e.mvEvents e.mvSensors e.eventsCsv e.sensorsCsv
      fs ["data/events.csv", "data/sensors.csv",
          pathJoin "data/archive" (archivedFilename "events.csv" e.tsData),
          pathJoin "data/archive" (archivedFilename "sensors.csv" e.tsData),
          "images/culprit_signals_analysis.png",
          pathJoin "images/archive"
            (archivedFilename "culprit_signals_analysis.png" e.tsPlot)]
      (by simp) (by simp) (by simp) (by simp)
    rw [hg] at hF1
    simp only [resState] at hF1
    cases hd : create_dashboard e.tsPlot e.mvPlot e.plotPng fs1 with
    | error s =>
      have hF2 := sameOutside_dashboard e.tsPlot e.mvPlot e.plotPng fs1
        ["data/events.csv", "data/sensors.csv",
          pathJoin "data/archive" (archivedFilename "events.csv" e.tsData),
          pathJoin "data/archive" (archivedFilename "sensors.csv" e.tsData),
          "images/culprit_signals_analysis.png",
          pathJoin "images/archive"
            (archivedFilename "culprit_signals_analysis.png" e.tsPlot)]
        (by simp) (by simp)
      rw [hd] at hF2
      simp only [resState] at hF2
      have hF := sameOutside_trans hF1 hF2
      exact ⟨s, false, by simp [run_complete_pipeline, hg, hd], hF, hF _ hnR⟩
    | ok fs2 =>
      have hF2 := sameOutside_dashboard e.tsPlot e.mvPlot e.plotPng fs1
        ["data/events.csv", "data/sensors.csv",
          pathJoin "data/archive" (archivedFilename "events.csv" e.tsData),
          pathJoin "data/archive" (archivedFilename "sensors.csv" e.tsData),
          "images/culprit_signals_analysis.png",
          pathJoin "images/archive"
            (archivedFilename "culprit_signals_analysis.png" e.tsPlot)]
        (by simp) (by simp)
      rw [hd] at hF2
      simp only [resState] at hF2
      have hF := sameOutside_trans hF1 hF2
      exact ⟨fs2, true,
        by simp [run_complete_pipeline, hg, hd, run_plot_analysis, he], hF, hF _ hnR⟩

/-- Witness for C8 at a concrete environment whose inference fails. -/
theorem claim_C8_analysis_failure_contained_witness :
    run_plot_analysis (PipelineEnv.inference
        ⟨"TD", .success, .success, "E", "S", "TP", .success, "P", .error (), "TA",
          .success, "TG", "TL"⟩) = none
    ∧ ∃ s b, run_complete_pipeline
        ⟨"TD", .success, .success, "E", "S", "TP", .success, "P", .error (), "TA",
          .success, "TG", "TL"⟩ ⟨[], []⟩ = .ok (s, b)
      ∧ sameOutside ⟨[], []⟩ s ["data/events.csv", "data/sensors.csv",
          pathJoin "data/archive" (archivedFilename "events.csv" "TD"),
          pathJoin "data/archive" (archivedFilename "sensors.csv" "TD"),
          "images/culprit_signals_analysis.png",
          pathJoin "images/archive" (archivedFilename "culprit_signals_analysis.png" "TP")]
      ∧ s.lookup "analysis/analysis_report.txt"
          = FS.lookup ⟨[], []⟩ "analysis/analysis_report.txt" :=
  claim_C8_analysis_failure_contained
    ⟨"TD", .success, .success, "E", "S", "TP", .success, "P", .error (), "TA",
      .success, "TG", "TL"⟩ ⟨[], []⟩ rfl

/-- C5 counterexample: it is not the case that every loop iteration
that proceeds to the next cycle does so after the sleep.  At a concrete
environment whose events move fails, the iteration hits `continue` and
starts the next cycle without ever reaching the sleep. -/
theorem claim_C5_counterexample :
    ¬ ∀ (e : PipelineEnv) (fs s : FS) (b : Bool),
        continuousCycle e fs = .ok (s, b) → b = true := by
  intro h
  have hb := h ⟨"TS", .failKeep, .success, "E", "S", "TP", .success, "P", .error (), "TA",
      .success, "TG", "TL"⟩
    ⟨[("data/events.csv", "E0")], []⟩
    ⟨[("data/events.csv", "E0")], ["data/archive"]⟩ false rfl
  exact Bool.false_ne_true hb

/-- C5 amended: an iteration of the continuous loop reaches the next
cycle without the fixed-interval sleep exactly when data generation or
visualization fails (`continue` skips the sleep); when both steps
succeed, the iteration either sleeps before the next cycle or an
exception escaping the report save propagates out of the loop.  No
error is retried within a cycle. -/
theorem claim_C5_amended_cycle_pacing (e : PipelineEnv) (fs : FS) :
    (∀ s, continuousCycle e fs = .ok (s, false) →
      (∃ s1, generate_and_save_data e.tsData e.mvEvents e.mvSensors e.eventsCsv
          e.sensorsCsv fs = .error s1)
      ∨ (∃ fs1 s2, generate_and_save_data e.tsData e.mvEvents e.mvSensors e.eventsCsv
            e.sensorsCsv fs = .ok fs1
          ∧ create_dashboard e.tsPlot e.mvPlot e.plotPng fs1 = .error s2))
    ∧ (∀ fs1 fs2, generate_and_save_data e.tsData e.mvEvents e.mvSensors e.eventsCsv
          e.sensorsCsv fs = .ok fs1 →
        create_dashboard e.tsPlot e.mvPlot e.plotPng fs1 = .ok fs2 →
        (∃ s, continuousCycle e fs = .ok (s, true))
          ∨ (∃ s, continuousCycle e fs = .error s)) := by
  constructor
  · intro s hc
    cases hg : generate_and_save_data e.tsData e.mvEvents e.mvSensors e.eventsCsv
        e.sensorsCsv fs with
    | error s1 => exact Or.inl ⟨s1, rfl⟩
    | ok fs1 =>
      cases hd : create_dashboard e.tsPlot e.mvPlot e.plotPng fs1 with
      | error s2 => exact Or.inr ⟨fs1, s2, rfl, hd⟩
      | ok fs2 =>
        simp only [continuousCycle, hg, hd] at hc
        cases hi : run_plot_analysis e.inference with
        | none =>
          simp only [hi] at hc
          simp at hc
        | some text =>
          simp only [hi] at hc
          cases hs : save_analysis_report (some text) true e.tsAnalysis e.mvAnalysis
              e.tsGen e.tsLegacy fs2 with
          | error s3 =>
            simp only [hs] at hc
            simp at hc
          | ok fs3 =>
            simp only [hs] at hc
            simp at hc
  · intro fs1 fs2 hg hd
    cases hi : run_plot_analysis e.inference with
    | none => exact Or.inl ⟨fs2, by simp [continuousCycle, hg, hd, hi]⟩
    | some text =>
      cases hs : save_analysis_report (some text) true e.tsAnalysis e.mvAnalysis
          e.tsGen e.tsLegacy fs2 with
      | error s3 => exact Or.inr ⟨s3, by simp [continuousCycle, hg, hd, hi, hs]⟩
      | ok fs3 => exact Or.inl ⟨fs3, by simp [continuousCycle, hg, hd, hi, hs]⟩

/-- Witness for the amended C5: a fully successful concrete cycle
reaches the sleep. -/
theorem claim_C5_amended_cycle_pacing_witness :
    (∃ s, continuousCycle
        ⟨"TD", .success, .success, "E", "S", "TP", .success, "P", .ok "OUT", "TA",
          .success, "TG", "TL"⟩ ⟨[], []⟩ = .ok (s, true))
    ∨ (∃ s, continuousCycle
        ⟨"TD", .success, .success, "E", "S", "TP", .success, "P", .ok "OUT", "TA",
          .success, "TG", "TL"⟩ ⟨[], []⟩ = .error s) :=
  (claim_C5_amended_cycle_pacing
    ⟨"TD", .success, .success, "E", "S", "TP", .success, "P", .ok "OUT", "TA",
      .success, "TG", "TL"⟩ ⟨[], []⟩).2
    ⟨[("data/sensors.csv", "S"), ("data/events.csv", "E")], ["data/archive"]⟩
    ⟨[("images/culprit_signals_analysis.png", "P"), ("data/sensors.csv", "S"),
        ("data/events.csv", "E")], ["images/archive", "data/archive"]⟩
    rfl rfl

/-- C7 counterexample: at the concrete output "OUT" and timestamp "T",
the file content written by the source differs from the layout the
claim describes (banner of rule, title, timestamp line, source line,
rule; raw output; closing rule; no other lines). -/
theorem claim_C7_counterexample :
    reportContent "OUT" "T" ≠ claimedReportLayout "OUT" "T" := by decide

set_option maxRecDepth 4000 in
/-- C7 amended: the written report consists of exactly these lines: a
rule of `=`, the title, a second rule, the generation-timestamp line,
the source-artifact line, a rule followed by a blank line, the raw
model output, a blank line, a closing rule, and an `End of Report`
line. -/
theorem claim_C7_amended_report_layout (text tsGen : String) :
    reportContent text tsGen
      = mkLines [rule80, "INDUSTRIAL PROCESS MONITORING - ANOMALY ANALYSIS REPORT",
          rule80, "Generated at: " ++ tsGen,
          "Source plot: images/culprit_signals_analysis.png", rule80, "",
          text, "", rule80, "End of Report"] := by
  apply String.ext
  simp [reportContent, mkLines, String.data_append, List.append_assoc]
